import Mathlib

/-
Verification of the hypermarket Market Settlement Engine
(src/contracts/src/market.rs) and Oracle Registry (src/contracts/src/oracle.rs).

Modelling conventions:
* `U256` amounts are modelled as `Nat`.  Every subtraction the engine performs
  is guarded by a balance check before it happens (Rust `-=` on `U256` panics on
  underflow), so truncated `Nat` subtraction agrees with the source on every
  reachable branch; `saturating_sub` is `Nat` subtraction exactly.
* Addresses (`ethers::types::Address`) are modelled as `Nat`.  The source
  compares `format!("{:?}", address)` with the stored `oracle_id` string; since
  debug-formatting of addresses is injective we compare the identities directly.
* `HashMap` ledgers are modelled as association lists with unique keys:
  `lookupEntry` / `setEntry` / `removeEntry` mirror `get` / `entry().or_insert`
  plus in-place mutation / `remove`.
* External collaborators (identity provider, Hyperliquid gateway, oracle
  registry lookup) are passed to each operation as explicit inputs: an
  `Option` caller identity (`none` = the auth manager fails), `Option` results
  for order-book / position fetches (`none` = transport error) and `Bool`
  success flags for gateway transactions, in the exact order the source
  consumes them.  Each operation returns the post-call state paired with
  `Option MarketError` (`none` = `Ok`), matching Rust `&mut self` semantics:
  on an error return the state carries exactly the mutations committed before
  the failure point.
* Rust tuple fields `.0` / `.1` correspond to Lean `Prod` fields `.1` / `.2`.
* Market fields that only route gateway calls or carry display text
  (`question`, token address strings, `collateral_token`) are omitted: no
  embedded branch reads them.
-/

namespace Hypermarket

/-- Association-list lookup, mirroring `HashMap::get`. -/
def lookupEntry {α : Type} (m : List (Nat × α)) (k : Nat) : Option α :=
  match m with
  | [] => none
  | (k', v) :: rest => if k' = k then some v else lookupEntry rest k

/-- Lookup with default 0, mirroring `get(..).copied().unwrap_or(U256::zero())`. -/
def lookupD (m : List (Nat × Nat)) (k : Nat) : Nat :=
  (lookupEntry m k).getD 0

/-- Replace the value stored at `k` (or append it), mirroring `HashMap` insertion
and in-place mutation through `entry(..).or_insert(..)` / `get_mut`. -/
def setEntry {α : Type} (m : List (Nat × α)) (k : Nat) (v : α) : List (Nat × α) :=
  match m with
  | [] => [(k, v)]
  | (k', v') :: rest => if k' = k then (k, v) :: rest else (k', v') :: setEntry rest k v

/-- Remove the entry stored at `k`, mirroring `HashMap::remove`. -/
def removeEntry {α : Type} (m : List (Nat × α)) (k : Nat) : List (Nat × α) :=
  match m with
  | [] => []
  | (k', v') :: rest =>
      if k' = k then removeEntry rest k else (k', v') :: removeEntry rest k

/-- Sum of all stored values of a ledger, the `sum(collateral_balances.values())`
of the specification. -/
def sumVals (m : List (Nat × Nat)) : Nat :=
  (m.map Prod.snd).sum

/-- `MarketError` from src/contracts/src/market.rs.  The two wrapper variants
`AuthError(..)` and `HyperliquidError(..)` are kept without their payloads. -/
inductive MarketError where
  | MarketNotActive
  | MarketNotExpired
  | MarketNotResolved
  | InsufficientBalance
  | InvalidOrder
  | InvalidAmount
  | Unauthorized
  | MarketAlreadyResolved
  | InvalidOracle
  | AuthError
  | HyperliquidError
  | InsufficientCollateral
  | InvalidCollateralToken
  | CollateralTransferFailed
  | WithdrawalExceedsBalance
  | OrderPlacementFailed
  | OrderCancellationFailed
  | MarketSettlementFailed
  | InvalidSignature
  deriving DecidableEq

/-- `MarketStatus` from src/contracts/src/lib.rs. -/
inductive MarketStatus where
  | Active
  | Expired
  | Resolved
  deriving DecidableEq

/-- The lifecycle-relevant fields of `Market` (src/contracts/src/lib.rs). -/
structure Market where
  expiry_timestamp : Nat
  oracle_id : Nat
  status : MarketStatus
  resolved_outcome : Option Bool
  deriving DecidableEq

/-- Order side (`hyperliquid_rust::types::order::Side`). -/
inductive Side where
  | Buy
  | Sell
  deriving DecidableEq

/-- A user position as returned by `get_user_position`: signed size and entry
price. -/
structure Position where
  size : Int
  entry_price : Nat
  deriving DecidableEq

/-- One price level of the L2 order book. -/
structure BookLevel where
  price : Nat
  size : Nat
  deriving DecidableEq

/-- The L2 order book returned by `get_l2_book`, best levels first. -/
structure L2Book where
  bids : List BookLevel
  asks : List BookLevel
  deriving DecidableEq

/-- `calculate_volatility_multiplier` (market.rs lines 291-324): a step function
of the bid/ask spread in basis points. -/
def calculate_volatility_multiplier (book : L2Book) : Nat :=
  match book.bids, book.asks with
  | [], _ => 100
  | _, [] => 100
  | b :: _, a :: _ =>
      let mid_price := (b.price + a.price) / 2
      if mid_price = 0 then 100
      else
        let spread_bps := (a.price - b.price) * 10000 / mid_price
        if spread_bps < 50 then 100
        else if spread_bps < 100 then 120
        else if spread_bps < 200 then 150
        else 200

/-- `calculate_required_collateral` (market.rs lines 235-289), with the order
book passed in for the `get_order_book` fetch it performs. -/
def calculate_required_collateral (position : Position) (book : L2Book) : Nat :=
  let position_size := position.size.natAbs
  let mark_price :=
    match book.bids, book.asks with
    | b :: _, a :: _ => (b.price + a.price) / 2
    | _, _ => position.entry_price
  let position_value := position_size * mark_price
  let volatility_multiplier := calculate_volatility_multiplier book
  let position_margin := position_value * 20 * volatility_multiplier / 100
  let order_margin := (book.bids.map (fun l => l.size * l.price * 20 / 100)).sum
  let liquidation_buffer := if position_value > 0 then position_value * 10 / 100 else 0
  max (position_margin + order_margin + liquidation_buffer) 100

/-- The mutable state of `MarketContractState` (market.rs lines 61-73):
token supplies, per-user (yes, no) token balances, per-user collateral
balances and the market-wide collateral total. -/
structure EngineState where
  market : Market
  yes_token_supply : Nat
  no_token_supply : Nat
  user_balances : List (Nat × (Nat × Nat))
  collateral_balances : List (Nat × Nat)
  total_collateral : Nat
  deriving DecidableEq

/-- `deposit_collateral` (market.rs lines 148-185).  `sigOk` is the result of
`create_signed_request`, `txOk` of the gateway deposit (a failed transfer maps
to `CollateralTransferFailed`). -/
def deposit_collateral (s : EngineState) (caller : Option Nat) (amount : Nat)
    (sigOk txOk : Bool) : EngineState × Option MarketError :=
  if s.market.status = MarketStatus.Active then
    match caller with
    | none => (s, some MarketError.AuthError)
    | some user =>
        if sigOk then
          if txOk then
            ({ s with
                collateral_balances :=
                  setEntry s.collateral_balances user
                    (lookupD s.collateral_balances user + amount),
                total_collateral := s.total_collateral + amount }, none)
          else (s, some MarketError.CollateralTransferFailed)
        else (s, some MarketError.AuthError)
  else (s, some MarketError.MarketNotActive)

/-- `withdraw_collateral` (market.rs lines 187-233).  `position` and `book` are
the results of `get_user_position` and of the `get_order_book` fetch inside
`calculate_required_collateral` (`none` = gateway error); `txOk` is the gateway
withdrawal result. -/
def withdraw_collateral (s : EngineState) (caller : Option Nat) (amount : Nat)
    (position : Option Position) (book : Option L2Book) (txOk : Bool) :
    EngineState × Option MarketError :=
  if s.market.status = MarketStatus.Active then
    match caller with
    | none => (s, some MarketError.AuthError)
    | some user =>
        let balance := lookupD s.collateral_balances user
        if balance < amount then (s, some MarketError.WithdrawalExceedsBalance)
        else
          match position with
          | none => (s, some MarketError.HyperliquidError)
          | some pos =>
              match book with
              | none => (s, some MarketError.HyperliquidError)
              | some bk =>
                  let required_collateral := calculate_required_collateral pos bk
                  if balance - amount < required_collateral then
                    (s, some MarketError.InsufficientCollateral)
                  else if txOk then
                    ({ s with
                        collateral_balances :=
                          setEntry s.collateral_balances user (balance - amount),
                        total_collateral := s.total_collateral - amount }, none)
                  else (s, some MarketError.HyperliquidError)
  else (s, some MarketError.MarketNotActive)

/-- `validate_order` (market.rs lines 422-451). -/
def validate_order (book : L2Book) (side : Side) (price amount : Nat) :
    Option MarketError :=
  if amount < 1 then some MarketError.InvalidAmount
  else
    match side with
    | Side.Buy =>
        match book.asks with
        | [] => none
        | a :: _ =>
            if price > a.price * 110 / 100 then some MarketError.InvalidOrder else none
    | Side.Sell =>
        match book.bids with
        | [] => none
        | b :: _ =>
            if price < b.price * 90 / 100 then some MarketError.InvalidOrder else none

/-- `place_order` (market.rs lines 330-420).  The source fetches the order book
twice: once inside `calculate_required_collateral` (`book`) and once for
`validate_order` (`book2`).  On success it debits the caller's collateral entry
by `price * amount` and leaves `total_collateral` untouched. -/
def place_order (s : EngineState) (caller : Option Nat) (side : Side)
    (price amount : Nat) (position : Option Position) (book book2 : Option L2Book)
    (txOk : Bool) : EngineState × Option MarketError :=
  if s.market.status = MarketStatus.Active then
    match caller with
    | none => (s, some MarketError.AuthError)
    | some user =>
        let balance := (lookupEntry s.user_balances user).getD (0, 0)
        let tokensOk :=
          match side with
          | Side.Buy => decide (¬ balance.2 < amount)
          | Side.Sell => decide (¬ balance.1 < amount)
        if tokensOk then
          let required_collateral := price * amount
          let user_collateral := lookupD s.collateral_balances user
          match position with
          | none => (s, some MarketError.HyperliquidError)
          | some pos =>
              match book with
              | none => (s, some MarketError.HyperliquidError)
              | some bk =>
                  let current_required := calculate_required_collateral pos bk
                  if user_collateral < current_required + required_collateral then
                    (s, some MarketError.InsufficientCollateral)
                  else
                    match book2 with
                    | none => (s, some MarketError.HyperliquidError)
                    | some bk2 =>
                        match validate_order bk2 side price amount with
                        | some e => (s, some e)
                        | none =>
                            if txOk then
                              ({ s with
                                  collateral_balances :=
                                    setEntry s.collateral_balances user
                                      (user_collateral - required_collateral) }, none)
                            else (s, some MarketError.OrderPlacementFailed)
        else (s, some MarketError.InsufficientBalance)
  else (s, some MarketError.MarketNotActive)

/-- The inherent `mint_tokens` (market.rs lines 453-483): no amount or
collateral check, credits both supplies and both caller balances. -/
def mint_tokens (s : EngineState) (caller : Option Nat) (amount : Nat) :
    EngineState × Option MarketError :=
  if s.market.status = MarketStatus.Active then
    match caller with
    | none => (s, some MarketError.AuthError)
    | some user =>
        let balance := (lookupEntry s.user_balances user).getD (0, 0)
        ({ s with
            yes_token_supply := s.yes_token_supply + amount,
            no_token_supply := s.no_token_supply + amount,
            user_balances :=
              setEntry s.user_balances user
                (balance.1 + amount, balance.2 + amount) }, none)
  else (s, some MarketError.MarketNotActive)

/-- The `MarketContract` trait impl of `mint_tokens` (market.rs lines 760-862):
checks caller collateral at a 1:1 ratio and debits it (leaving
`total_collateral` untouched), then credits supplies and balances.  `sigOk`,
`mintOk`, `yesOrderOk`, `noOrderOk` are the signed-request and three gateway
call results.  The source debits through `get_mut(..).unwrap()`, which panics
when the caller has no collateral entry (reachable only with `amount = 0`);
theorems about this operation therefore assume the entry exists. -/
def MarketContract.mint_tokens (s : EngineState) (caller : Option Nat)
    (amount : Nat) (sigOk mintOk yesOrderOk noOrderOk : Bool) :
    EngineState × Option MarketError :=
  if s.market.status = MarketStatus.Active then
    match caller with
    | none => (s, some MarketError.AuthError)
    | some user =>
        let collateral_required := amount
        let user_collateral := lookupD s.collateral_balances user
        if user_collateral < collateral_required then
          (s, some MarketError.InsufficientCollateral)
        else if sigOk then
          if mintOk then
            if yesOrderOk then
              if noOrderOk then
                let balance := (lookupEntry s.user_balances user).getD (0, 0)
                ({ s with
                    collateral_balances :=
                      setEntry s.collateral_balances user
                        (user_collateral - collateral_required),
                    yes_token_supply := s.yes_token_supply + amount,
                    no_token_supply := s.no_token_supply + amount,
                    user_balances :=
                      setEntry s.user_balances user
                        (balance.1 + amount, balance.2 + amount) }, none)
              else (s, some MarketError.HyperliquidError)
            else (s, some MarketError.HyperliquidError)
          else (s, some MarketError.HyperliquidError)
        else (s, some MarketError.AuthError)
  else (s, some MarketError.MarketNotActive)

/-- `burn_tokens` (market.rs lines 485-531): requires the caller to hold at
least `yes_amount` YES and `no_amount` NO tokens (independently; the amounts
need not be equal), then debits supplies and balances by the per-side amounts. -/
def burn_tokens (s : EngineState) (caller : Option Nat)
    (yes_amount no_amount : Nat) (sigOk txOk : Bool) :
    EngineState × Option MarketError :=
  if s.market.status = MarketStatus.Active then
    match caller with
    | none => (s, some MarketError.AuthError)
    | some user =>
        match lookupEntry s.user_balances user with
        | none => (s, some MarketError.InsufficientBalance)
        | some balance =>
            if balance.1 < yes_amount ∨ balance.2 < no_amount then
              (s, some MarketError.InsufficientBalance)
            else if sigOk then
              if txOk then
                ({ s with
                    yes_token_supply := s.yes_token_supply - yes_amount,
                    no_token_supply := s.no_token_supply - no_amount,
                    user_balances :=
                      setEntry s.user_balances user
                        (balance.1 - yes_amount, balance.2 - no_amount) }, none)
              else (s, some MarketError.HyperliquidError)
            else (s, some MarketError.AuthError)
  else (s, some MarketError.MarketNotActive)

/-- `resolve` (market.rs lines 533-575).  `oracleOutcome` is the Oracle
Registry lookup performed by `get_oracle_outcome` (`none` yields
`MarketNotResolved`); `cancelOk` is the gateway order-cancellation result. -/
def resolve (s : EngineState) (caller : Option Nat) (oracleOutcome : Option Bool)
    (cancelOk : Bool) : EngineState × Option MarketError :=
  if s.market.status = MarketStatus.Expired then
    match caller with
    | none => (s, some MarketError.AuthError)
    | some user =>
        if user = s.market.oracle_id then
          if s.market.resolved_outcome.isSome then
            (s, some MarketError.MarketAlreadyResolved)
          else
            match oracleOutcome with
            | none => (s, some MarketError.MarketNotResolved)
            | some outcome =>
                if cancelOk then
                  ({ s with
                      market :=
                        { s.market with
                            status := MarketStatus.Resolved,
                            resolved_outcome := some outcome } }, none)
                else (s, some MarketError.HyperliquidError)
        else (s, some MarketError.InvalidOracle)
  else (s, some MarketError.MarketNotExpired)

/-- `claim_winnings` (market.rs lines 599-676): selects the caller's
winning-side balance, converts it at `settlement_price` (1 when the resolved
outcome is `true`, 0 when it is `false`), credits any positive proceeds to the
caller's collateral entry, removes the caller's token-balance entry and debits
both supplies by the removed amounts.  The source `unwrap`s
`resolved_outcome`, which every engine transition sets together with
`status = Resolved`; the model defaults the unreachable `none` case to
`false`. -/
def claim_winnings (s : EngineState) (caller : Option Nat)
    (position : Option Position) (cancelOk settleOk : Bool) :
    EngineState × Option MarketError :=
  if s.market.status = MarketStatus.Resolved then
    match caller with
    | none => (s, some MarketError.AuthError)
    | some user =>
        match lookupEntry s.user_balances user with
        | none => (s, some MarketError.InsufficientBalance)
        | some balance =>
            let outcome := s.market.resolved_outcome.getD false
            let winning_amount := if outcome then balance.1 else balance.2
            if winning_amount = 0 then (s, some MarketError.InsufficientBalance)
            else
              match position with
              | none => (s, some MarketError.HyperliquidError)
              | some _ =>
                  if cancelOk then
                    let settlement_price := if outcome then 1 else 0
                    if settleOk then
                      let collateral_to_return := winning_amount * settlement_price
                      let new_collateral :=
                        if collateral_to_return > 0 then
                          setEntry s.collateral_balances user
                            (lookupD s.collateral_balances user + collateral_to_return)
                        else s.collateral_balances
                      ({ s with
                          collateral_balances := new_collateral,
                          user_balances := removeEntry s.user_balances user,
                          yes_token_supply := s.yes_token_supply - balance.1,
                          no_token_supply := s.no_token_supply - balance.2 }, none)
                    else (s, some MarketError.MarketSettlementFailed)
                  else (s, some MarketError.HyperliquidError)
  else (s, some MarketError.MarketNotResolved)

/-- `check_expiry` (market.rs lines 734-755): when the market is `Active` and
past expiry it first sets the status to `Expired` and only then resolves the
caller address (whose value the emitted event never uses); a failing identity
provider therefore returns an error after the status mutation committed. -/
def check_expiry (s : EngineState) (now : Nat) (caller : Option Nat) :
    EngineState × Option MarketError :=
  if s.market.expiry_timestamp ≤ now ∧ s.market.status = MarketStatus.Active then
    let s' := { s with market := { s.market with status := MarketStatus.Expired } }
    match caller with
    | none => (s', some MarketError.AuthError)
    | some _ => (s', none)
  else (s, none)

/-- One engine operation together with the external-world inputs it consumes
(caller identity, gateway fetch results and transaction outcomes). -/
inductive Op where
  | deposit_collateral (caller : Option Nat) (amount : Nat) (sigOk txOk : Bool)
  | withdraw_collateral (caller : Option Nat) (amount : Nat)
      (position : Option Position) (book : Option L2Book) (txOk : Bool)
  | place_order (caller : Option Nat) (side : Side) (price amount : Nat)
      (position : Option Position) (book book2 : Option L2Book) (txOk : Bool)
  | mint_tokens (caller : Option Nat) (amount : Nat)
  | mint_tokens_checked (caller : Option Nat) (amount : Nat)
      (sigOk mintOk yesOrderOk noOrderOk : Bool)
  | burn_tokens (caller : Option Nat) (yes_amount no_amount : Nat) (sigOk txOk : Bool)
  | resolve (caller : Option Nat) (oracleOutcome : Option Bool) (cancelOk : Bool)
  | claim_winnings (caller : Option Nat) (position : Option Position)
      (cancelOk settleOk : Bool)
  | check_expiry (now : Nat) (caller : Option Nat)
  deriving DecidableEq

/-- Dispatch one operation to its implementation.  `mint_tokens_checked` is the
`MarketContract` trait impl of `mint_tokens`; `mint_tokens` the inherent one. -/
def step (s : EngineState) (op : Op) : EngineState × Option MarketError :=
  match op with
  | Op.deposit_collateral c a sig tx => deposit_collateral s c a sig tx
  | Op.withdraw_collateral c a pos bk tx => withdraw_collateral s c a pos bk tx
  | Op.place_order c side p a pos bk bk2 tx => place_order s c side p a pos bk bk2 tx
  | Op.mint_tokens c a => mint_tokens s c a
  | Op.mint_tokens_checked c a sig mk y n => MarketContract.mint_tokens s c a sig mk y n
  | Op.burn_tokens c y n sig tx => burn_tokens s c y n sig tx
  | Op.resolve c oc ck => resolve s c oc ck
  | Op.claim_winnings c pos ck st => claim_winnings s c pos ck st
  | Op.check_expiry now c => check_expiry s now c

/-- Run a sequence of operations; an operation that errors contributes exactly
the mutations it committed before returning (Rust `&mut self` semantics). -/
def run (s : EngineState) (ops : List Op) : EngineState :=
  ops.foldl (fun t op => (step t op).1) s

/-- The operations that leave `sum(collateral_balances) = total_collateral`
intact: they either mutate the user ledger and the total symmetrically
(deposit, withdraw) or touch neither (supply-only mint, burn, resolve,
check_expiry).  Excluded: `place_order` and the collateral-checking mint debit
a user entry without touching the total, and a winning claim credits a user
entry without touching the total. -/
def collateralSafe : Op → Bool
  | Op.deposit_collateral .. => true
  | Op.withdraw_collateral .. => true
  | Op.mint_tokens .. => true
  | Op.burn_tokens .. => true
  | Op.resolve .. => true
  | Op.check_expiry .. => true
  | _ => false

/-- The mint/burn operations whose supply deltas are paired: any mint, and a
burn whose two requested amounts are equal. -/
def pairedSupplyOp : Op → Bool
  | Op.mint_tokens .. => true
  | Op.mint_tokens_checked .. => true
  | Op.burn_tokens _ y n _ _ => decide (y = n)
  | _ => false

/-- `OracleError` from src/contracts/src/oracle.rs (wrapper payloads dropped). -/
inductive OracleError where
  | OracleNotRegistered
  | OutcomeAlreadySubmitted
  | InvalidSignature
  | MarketNotFound
  | AuthError
  | HyperliquidError
  deriving DecidableEq

/-- `OracleInfo` from src/contracts/src/oracle.rs; the `H256` public key is
modelled as a `Nat`. -/
structure OracleInfo where
  address : Nat
  public_key : Nat
  reputation_score : Nat
  total_submissions : Nat
  deriving DecidableEq

/-- The mutable state of `OracleManagerState` (oracle.rs lines 52-59).  A
stored `OracleSubmission` is abstracted to its outcome, the only field
`get_outcome` reads; market ids are modelled as `Nat`. -/
structure OracleManagerState where
  registered_oracles : List (Nat × OracleInfo)
  market_outcomes : List (Nat × Bool)
  deriving DecidableEq

/-- `register_oracle` (oracle.rs lines 143-178).  `sigOk` is the
signed-request result and `adminOk` the gateway admin verification; when the
address is already registered the registry is left untouched and the call
still returns `Ok`. -/
def register_oracle (s : OracleManagerState) (caller : Option Nat)
    (sigOk adminOk : Bool) (address public_key : Nat) :
    OracleManagerState × Option OracleError :=
  match caller with
  | none => (s, some OracleError.AuthError)
  | some _ =>
      if sigOk then
        if adminOk then
          if (lookupEntry s.registered_oracles address).isSome then (s, none)
          else
            ({ s with
                registered_oracles :=
                  setEntry s.registered_oracles address
                    { address := address, public_key := public_key,
                      reputation_score := 100, total_submissions := 0 } }, none)
        else (s, some OracleError.HyperliquidError)
      else (s, some OracleError.AuthError)

/-- A flat position (size 0), the least demanding `get_user_position` result. -/
def flatPosition : Position :=
  { size := 0, entry_price := 0 }

/-- An empty order book: margin falls back to the 100-unit minimum and price
validation is vacuous. -/
def emptyBook : L2Book :=
  { bids := [], asks := [] }

/-- A freshly created active market state (empty ledgers, zero supplies),
oracle identity 1, expiry at time 100. -/
def initState : EngineState :=
  { market :=
      { expiry_timestamp := 100, oracle_id := 1,
        status := MarketStatus.Active, resolved_outcome := none },
    yes_token_supply := 0, no_token_supply := 0,
    user_balances := [], collateral_balances := [], total_collateral := 0 }

/-- Trace refuting the collateral-sum invariant: user 0 deposits 10000, mints
10 token pairs through the supply-only mint, then places a buy order for 2
tokens at price 5, which debits 10 from the user's collateral entry while
`total_collateral` stays 10000. -/
def collateralSumTrace : List Op :=
  [Op.deposit_collateral (some 0) 10000 true true,
   Op.mint_tokens (some 0) 10,
   Op.place_order (some 0) Side.Buy 5 2 (some flatPosition)
     (some emptyBook) (some emptyBook) true]

/-- Trace refuting the supply-equality invariant: user 0 mints 100 pairs, then
burns 30 YES and 40 NO, leaving supplies 70 and 60. -/
def supplyTrace : List Op :=
  [Op.mint_tokens (some 0) 100,
   Op.burn_tokens (some 0) 30 40 true true]

/-- A market resolved with outcome `false` (NO wins) where user 0 holds 70 NO
tokens and 5 units of collateral. -/
def resolvedNoState : EngineState :=
  { market :=
      { expiry_timestamp := 100, oracle_id := 1,
        status := MarketStatus.Resolved, resolved_outcome := some false },
    yes_token_supply := 0, no_token_supply := 70,
    user_balances := [(0, (0, 70))],
    collateral_balances := [(0, 5)], total_collateral := 5 }

/-- An expired, not yet resolved market whose designated oracle is identity 1. -/
def expiredState : EngineState :=
  { market :=
      { expiry_timestamp := 100, oracle_id := 1,
        status := MarketStatus.Expired, resolved_outcome := none },
    yes_token_supply := 0, no_token_supply := 0,
    user_balances := [], collateral_balances := [], total_collateral := 0 }

/-- An active market rich in collateral for user 0 who holds no tokens. -/
def tokenPoorState : EngineState :=
  { market :=
      { expiry_timestamp := 100, oracle_id := 1,
        status := MarketStatus.Active, resolved_outcome := none },
    yes_token_supply := 0, no_token_supply := 0,
    user_balances := [],
    collateral_balances := [(0, 100000)], total_collateral := 100000 }

/-- An active market where user 0 holds 5 units of collateral and no tokens. -/
def smallCollateralState : EngineState :=
  { market :=
      { expiry_timestamp := 100, oracle_id := 1,
        status := MarketStatus.Active, resolved_outcome := none },
    yes_token_supply := 0, no_token_supply := 0,
    user_balances := [],
    collateral_balances := [(0, 5)], total_collateral := 5 }

/-- A market resolved with outcome `true` (YES wins) where user 0 holds 70 YES
tokens. -/
def resolvedYesState : EngineState :=
  { market :=
      { expiry_timestamp := 100, oracle_id := 1,
        status := MarketStatus.Resolved, resolved_outcome := some true },
    yes_token_supply := 70, no_token_supply := 0,
    user_balances := [(0, (70, 0))],
    collateral_balances := [(0, 5)], total_collateral := 5 }

/-- The state after user 0 successfully claims on `resolvedYesState`. -/
def claimedYesState : EngineState :=
  (claim_winnings resolvedYesState (some 0) (some flatPosition) true true).1

/-- An oracle registry with identity 7 already registered (public key 11,
reputation 42, 3 submissions) and one stored outcome. -/
def registryState : OracleManagerState :=
  { registered_oracles :=
      [(7, { address := 7, public_key := 11,
             reputation_score := 42, total_submissions := 3 })],
    market_outcomes := [(1, true)] }

theorem lookupD_le_sumVals (m : List (Nat × Nat)) (k : Nat) :
    lookupD m k ≤ sumVals m := by
  induction m with
  | nil => simp [lookupD, lookupEntry, sumVals]
  | cons hd tl ih =>
      obtain ⟨k', v⟩ := hd
      by_cases h : k' = k
      · simp [lookupD, lookupEntry, sumVals, h]
      · simp only [lookupD, lookupEntry, sumVals, h, if_false, List.map_cons,
          List.sum_cons] at *
        omega

theorem sumVals_setEntry_add (m : List (Nat × Nat)) (k a : Nat) :
    sumVals (setEntry m k (lookupD m k + a)) = sumVals m + a := by
  induction m with
  | nil => simp [setEntry, sumVals, lookupD, lookupEntry]
  | cons hd tl ih =>
      obtain ⟨k', v⟩ := hd
      by_cases h : k' = k
      · simp only [setEntry, lookupD, lookupEntry, h, if_true, sumVals,
          List.map_cons, List.sum_cons, Option.getD_some]
        omega
      · simp only [setEntry, lookupD, lookupEntry, h, if_false, sumVals,
          List.map_cons, List.sum_cons] at *
        omega

theorem sumVals_setEntry_sub (m : List (Nat × Nat)) (k a : Nat)
    (h : a ≤ lookupD m k) :
    sumVals (setEntry m k (lookupD m k - a)) = sumVals m - a := by
  induction m with
  | nil =>
      simp [lookupD, lookupEntry] at h
      simp [setEntry, sumVals, lookupD, lookupEntry, h]
  | cons hd tl ih =>
      obtain ⟨k', v⟩ := hd
      by_cases hk : k' = k
      · simp only [setEntry, lookupD, lookupEntry, hk, if_true, sumVals,
          List.map_cons, List.sum_cons, Option.getD_some] at *
        omega
      · have hle := lookupD_le_sumVals tl k
        simp only [setEntry, lookupD, lookupEntry, hk, if_false, sumVals,
          List.map_cons, List.sum_cons] at *
        omega

theorem lookupEntry_removeEntry {α : Type} (m : List (Nat × α)) (k : Nat) :
    lookupEntry (removeEntry m k) k = none := by
  induction m with
  | nil => simp [removeEntry, lookupEntry]
  | cons hd tl ih =>
      obtain ⟨k', v⟩ := hd
      by_cases h : k' = k
      · simpa [removeEntry, h] using ih
      · simpa [removeEntry, lookupEntry, h] using ih

theorem step_collateralSafe_sum (s : EngineState) (op : Op)
    (hsafe : collateralSafe op = true)
    (h : sumVals s.collateral_balances = s.total_collateral) :
    sumVals (step s op).1.collateral_balances = (step s op).1.total_collateral := by
  cases op with
  | deposit_collateral c a sig tx =>
      simp only [step, deposit_collateral]
      repeat' split
      all_goals simp_all [sumVals_setEntry_add]
  | withdraw_collateral c a pos bk tx =>
      simp only [step, withdraw_collateral]
      repeat' split
      all_goals try exact h
      all_goals simp_all
      all_goals rename_i u h1 h2
      all_goals rw [sumVals_setEntry_sub _ _ _ (by omega), h]
  | mint_tokens c a =>
      simp only [step, mint_tokens]
      repeat' split
      all_goals simp_all
  | burn_tokens c y n sig tx =>
      simp only [step, burn_tokens]
      repeat' split
      all_goals simp_all
  | resolve c oc ck =>
      simp only [step, resolve]
      repeat' split
      all_goals simp_all
  | check_expiry now c =>
      simp only [step, check_expiry]
      repeat' split
      all_goals simp_all
  | place_order c side p a pos bk bk2 tx => simp [collateralSafe] at hsafe
  | mint_tokens_checked c a sig mk y n => simp [collateralSafe] at hsafe
  | claim_winnings c pos ck st => simp [collateralSafe] at hsafe

theorem step_pairedSupply (s : EngineState) (op : Op)
    (hop : pairedSupplyOp op = true)
    (h : s.yes_token_supply = s.no_token_supply) :
    (step s op).1.yes_token_supply = (step s op).1.no_token_supply := by
  cases op with
  | mint_tokens c a =>
      simp only [step, mint_tokens]
      repeat' split
      all_goals simp_all
  | mint_tokens_checked c a sig mk y n =>
      simp only [step, MarketContract.mint_tokens]
      repeat' split
      all_goals simp_all
  | burn_tokens c y n sig tx =>
      have hyn : y = n := by simpa [pairedSupplyOp] using hop
      subst hyn
      simp only [step, burn_tokens]
      repeat' split
      all_goals simp_all
  | deposit_collateral c a sig tx => simp [pairedSupplyOp] at hop
  | withdraw_collateral c a pos bk tx => simp [pairedSupplyOp] at hop
  | place_order c side p a pos bk bk2 tx => simp [pairedSupplyOp] at hop
  | resolve c oc ck => simp [pairedSupplyOp] at hop
  | claim_winnings c pos ck st => simp [pairedSupplyOp] at hop
  | check_expiry now c => simp [pairedSupplyOp] at hop

/-- Claim C1, counterexample: the collateral-sum invariant as stated is false.
After user 0 deposits 10000, mints 10 token pairs and successfully places a
buy order (2 tokens at price 5), the order lock debits 10 from the user's
collateral entry while `total_collateral` still holds 10000, so the sum of the
per-user entries (9990) no longer equals `total_collateral`. -/
theorem C1_counterexample :
    ¬ sumVals (run initState collateralSumTrace).collateral_balances
        = (run initState collateralSumTrace).total_collateral := by
  decide

/-- Claim C1 (amended): `sum(collateral_balances.values()) = total_collateral`
is preserved by every `deposit_collateral`, `withdraw_collateral`,
supply-only `mint_tokens`, `burn_tokens`, `resolve` and `check_expiry` step
(successful or failed), but not by `place_order`, the collateral-checking
mint, or `claim_winnings`: those move value into or out of the per-user
entries without touching `total_collateral`. -/
theorem C1_collateral_sum_preserved (ops : List Op) (s : EngineState)
    (hops : ∀ op ∈ ops, collateralSafe op = true)
    (h : sumVals s.collateral_balances = s.total_collateral) :
    sumVals (run s ops).collateral_balances = (run s ops).total_collateral := by
  induction ops generalizing s with
  | nil => simpa [run] using h
  | cons op rest ih =>
      have h1 := step_collateralSafe_sum s op (hops op (by simp)) h
      have hrun : run s (op :: rest) = run (step s op).1 rest := by
        simp [run]
      rw [hrun]
      exact ih (step s op).1 (fun o ho => hops o (List.mem_cons_of_mem _ ho)) h1

/-- Witness for C1_collateral_sum_preserved at a concrete deposit trace. -/
theorem C1_collateral_sum_preserved_witness :
    sumVals (run initState
        [Op.deposit_collateral (some 0) 5 true true]).collateral_balances
      = (run initState
        [Op.deposit_collateral (some 0) 5 true true]).total_collateral :=
  C1_collateral_sum_preserved
    [Op.deposit_collateral (some 0) 5 true true] initState
    (by decide) (by decide)

/-- Claim C2, counterexample: the supply-equality invariant fails for a burn
with unequal per-side amounts.  After minting 100 pairs and burning 30 YES /
40 NO (both calls succeed), `yes_token_supply = 70` while
`no_token_supply = 60`. -/
theorem C2_counterexample :
    ¬ (run initState supplyTrace).yes_token_supply
        = (run initState supplyTrace).no_token_supply := by
  decide

/-- Claim C2 (amended): `yes_token_supply = no_token_supply` holds after every
sequence of mint and burn operations in which each burn requests equal
yes and no amounts; a burn with unequal amounts shifts the supplies by the
per-side amounts and breaks the equality. -/
theorem C2_supply_equality_preserved (ops : List Op) (s : EngineState)
    (hops : ∀ op ∈ ops, pairedSupplyOp op = true)
    (h : s.yes_token_supply = s.no_token_supply) :
    (run s ops).yes_token_supply = (run s ops).no_token_supply := by
  induction ops generalizing s with
  | nil => simpa [run] using h
  | cons op rest ih =>
      have h1 := step_pairedSupply s op (hops op (by simp)) h
      have hrun : run s (op :: rest) = run (step s op).1 rest := by
        simp [run]
      rw [hrun]
      exact ih (step s op).1 (fun o ho => hops o (List.mem_cons_of_mem _ ho)) h1

/-- Witness for C2_supply_equality_preserved at a concrete mint/equal-burn
trace. -/
theorem C2_supply_equality_preserved_witness :
    (run initState [Op.mint_tokens (some 0) 100,
        Op.burn_tokens (some 0) 30 30 true true]).yes_token_supply
      = (run initState [Op.mint_tokens (some 0) 100,
        Op.burn_tokens (some 0) 30 30 true true]).no_token_supply :=
  C2_supply_equality_preserved
    [Op.mint_tokens (some 0) 100, Op.burn_tokens (some 0) 30 30 true true]
    initState (by decide) (by decide)

/-- Claim C3 (code bug): on a market resolved with outcome `false`, a caller
holding 70 winning NO tokens claims successfully (no error) yet their
collateral entry stays at 5 — the settlement price is chosen from the outcome
(1 for `true`, 0 for `false`) instead of from the winning side, so NO-side
winners are credited 0; the symmetric YES-side winner is credited their full
70 (5 + 70 = 75). -/
theorem C3_no_side_winner_credited_zero :
    (claim_winnings resolvedNoState (some 0) (some flatPosition) true true).2
      = none
    ∧ lookupD (claim_winnings resolvedNoState (some 0) (some flatPosition)
        true true).1.collateral_balances 0 = 5
    ∧ lookupD (claim_winnings resolvedYesState (some 0) (some flatPosition)
        true true).1.collateral_balances 0 = 75 := by
  decide

/-- Claim C4 (code bug): on an expired market with oracle identity 1, a
non-oracle caller is rejected with `InvalidOracle` and the oracle's call
succeeds; but the second `resolve` call after that success fails with
`MarketNotExpired` — not `MarketAlreadyResolved` as the claim (and the
source's own `test_resolve_already_resolved`) state, because the success
already moved the status from `Expired` to `Resolved`. -/
theorem C4_second_resolve_not_already_resolved :
    (resolve expiredState (some 2) (some true) true).2
      = some MarketError.InvalidOracle
    ∧ (resolve expiredState (some 1) (some true) true).2 = none
    ∧ (resolve (resolve expiredState (some 1) (some true) true).1
        (some 1) (some true) true).2 = some MarketError.MarketNotExpired := by
  decide

/-- Claim C5 (code bug): `check_expiry` on an expired-but-Active market whose
identity-provider lookup fails returns an error, yet the status mutation to
`Expired` has already been committed — an error path with a partial state
commit. -/
theorem C5_check_expiry_commits_before_error :
    (check_expiry initState 150 none).2 = some MarketError.AuthError
    ∧ (check_expiry initState 150 none).1 ≠ initState
    ∧ (check_expiry initState 150 none).1.market.status
        = MarketStatus.Expired := by
  decide

theorem validate_order_ne_insufficient_balance (book : L2Book) (side : Side)
    (price amount : Nat) :
    validate_order book side price amount ≠ some MarketError.InsufficientBalance := by
  unfold validate_order
  repeat' split
  all_goals simp_all

/-- Claim C6, counterexample: a buy order on an active market by a caller with
100000 units of collateral but no tokens is rejected with
`InsufficientBalance` — the source checks the caller's NO-token balance for a
buy, so token holdings are required after all. -/
theorem C6_counterexample :
    (place_order tokenPoorState (some 0) Side.Buy 1 1 (some flatPosition)
        (some emptyBook) (some emptyBook) true).2
      = some MarketError.InsufficientBalance := by
  decide

/-- Claim C6 (amended): on an active market, `place_order` with side `Buy`
fails with `InsufficientBalance` exactly when the caller's NO-token balance is
below the order amount (token holdings are required for a buy; no other branch
of `place_order` produces `InsufficientBalance`). -/
theorem C6_buy_requires_no_tokens (s : EngineState) (u price amount : Nat)
    (position : Option Position) (book book2 : Option L2Book) (txOk : Bool)
    (hA : s.market.status = MarketStatus.Active) :
    (place_order s (some u) Side.Buy price amount position book book2 txOk).2
        = some MarketError.InsufficientBalance
      ↔ ((lookupEntry s.user_balances u).getD (0, 0)).2 < amount := by
  unfold place_order
  simp only [hA, if_true]
  generalize hbal : (lookupEntry s.user_balances u).getD (0, 0) = bal
  obtain ⟨byes, bno⟩ := bal
  by_cases hb : bno < amount
  · simp [hb]
  · simp only [hb, decide_not, not_false_iff, decide_eq_true_eq, iff_false]
    simp only [show (decide ¬bno < amount) = true by simp [hb], if_true]
    repeat' split
    all_goals try simp_all
    all_goals
      (intro hc
       subst hc
       exact absurd (by assumption)
         (validate_order_ne_insufficient_balance _ _ _ _))

/-- Witness for C6_buy_requires_no_tokens at a concrete token-poor caller. -/
theorem C6_buy_requires_no_tokens_witness :
    ((place_order tokenPoorState (some 0) Side.Buy 1 2 none none none true).2
        = some MarketError.InsufficientBalance)
      ↔ ((lookupEntry tokenPoorState.user_balances 0).getD (0, 0)).2 < 2 :=
  C6_buy_requires_no_tokens tokenPoorState 0 1 2 none none none true (by decide)

/-- Claim C7 (confirmed): on an active market, with the position and book
fetches succeeding, `withdraw_collateral` fails with
`WithdrawalExceedsBalance` when `amount` exceeds the caller's balance, fails
with `InsufficientCollateral` when `balance - amount` is below the computed
required collateral, and never succeeds when success would leave
`balance - amount` below that required collateral. -/
theorem C7_withdrawal_guards (s : EngineState) (u amount : Nat) (pos : Position)
    (book : L2Book) (txOk : Bool) (hA : s.market.status = MarketStatus.Active) :
    (lookupD s.collateral_balances u < amount →
        (withdraw_collateral s (some u) amount (some pos) (some book) txOk).2
          = some MarketError.WithdrawalExceedsBalance)
    ∧ (amount ≤ lookupD s.collateral_balances u →
        lookupD s.collateral_balances u - amount
            < calculate_required_collateral pos book →
        (withdraw_collateral s (some u) amount (some pos) (some book) txOk).2
          = some MarketError.InsufficientCollateral)
    ∧ ((withdraw_collateral s (some u) amount (some pos) (some book) txOk).2 = none →
        calculate_required_collateral pos book
          ≤ lookupD s.collateral_balances u - amount) := by
  unfold withdraw_collateral
  simp only [hA, if_true]
  refine ⟨?_, ?_, ?_⟩
  · intro h1
    simp [h1]
  · intro h1 h2
    simp [Nat.not_lt.mpr h1, h2]
  · intro hnone
    by_cases h1 : lookupD s.collateral_balances u < amount
    · simp [h1] at hnone
    · by_cases h2 : lookupD s.collateral_balances u - amount
          < calculate_required_collateral pos book
      · simp [h1, h2] at hnone
      · omega

/-- Witness for C7_withdrawal_guards: withdrawing 99950 of a 100000 balance
leaves 50, below the 100-unit minimum required collateral, and is rejected
with `InsufficientCollateral`. -/
theorem C7_withdrawal_guards_witness :
    (withdraw_collateral tokenPoorState (some 0) 99950 (some flatPosition)
        (some emptyBook) true).2 = some MarketError.InsufficientCollateral :=
  (C7_withdrawal_guards tokenPoorState 0 99950 flatPosition emptyBook true
      (by decide)).2.1 (by decide) (by decide)

/-- Claim C8, counterexample: the collateral-checking `mint_tokens` with
`amount = 0` succeeds on an active market (the caller holds 5 units of
collateral), refuting the claimed `amount > 0` precondition — neither mint
implementation validates the amount. -/
theorem C8_counterexample :
    (MarketContract.mint_tokens smallCollateralState (some 0) 0
        true true true true).2 = none := by
  decide

/-- Claim C8 (amended): with all gateway calls succeeding, the
collateral-checking `mint_tokens` on an active market succeeds exactly when
the caller's collateral balance covers `amount` at the 1:1 ratio — `amount = 0`
included — and on success debits the caller's collateral by `amount`,
increments both supplies by `amount` and credits both caller token balances by
`amount`.  (The entry-exists hypothesis mirrors the source's
`get_mut(..).unwrap()` on the debit path.) -/
theorem C8_mint_checked_behavior (s : EngineState) (u amount : Nat)
    (hA : s.market.status = MarketStatus.Active)
    (hk : (lookupEntry s.collateral_balances u).isSome = true) :
    ((MarketContract.mint_tokens s (some u) amount true true true true).2 = none
      ↔ amount ≤ lookupD s.collateral_balances u)
    ∧ (amount ≤ lookupD s.collateral_balances u →
        (MarketContract.mint_tokens s (some u) amount true true true true).1
          = { s with
              collateral_balances :=
                setEntry s.collateral_balances u
                  (lookupD s.collateral_balances u - amount),
              yes_token_supply := s.yes_token_supply + amount,
              no_token_supply := s.no_token_supply + amount,
              user_balances :=
                setEntry s.user_balances u
                  (((lookupEntry s.user_balances u).getD (0, 0)).1 + amount,
                   ((lookupEntry s.user_balances u).getD (0, 0)).2 + amount) }) := by
  unfold MarketContract.mint_tokens
  simp only [hA, if_true]
  constructor
  · by_cases hlt : lookupD s.collateral_balances u < amount
    · simp [hlt]
    · simp [hlt]
      all_goals omega
  · intro hle
    have hlt : ¬ lookupD s.collateral_balances u < amount := Nat.not_lt.mpr hle
    simp [hlt]

/-- Witness for C8_mint_checked_behavior: minting 3 against a 5-unit
collateral entry. -/
theorem C8_mint_checked_behavior_witness :
    (MarketContract.mint_tokens smallCollateralState (some 0) 3
        true true true true).1
      = { smallCollateralState with
          collateral_balances :=
            setEntry smallCollateralState.collateral_balances 0
              (lookupD smallCollateralState.collateral_balances 0 - 3),
          yes_token_supply := smallCollateralState.yes_token_supply + 3,
          no_token_supply := smallCollateralState.no_token_supply + 3,
          user_balances :=
            setEntry smallCollateralState.user_balances 0
              (((lookupEntry smallCollateralState.user_balances 0).getD (0, 0)).1 + 3,
               ((lookupEntry smallCollateralState.user_balances 0).getD (0, 0)).2 + 3) } :=
  (C8_mint_checked_behavior smallCollateralState 0 3 (by decide) (by decide)).2
    (by decide)

/-- Claim C9 (confirmed): after any successful `claim_winnings`, the caller's
token-balance entry is gone, and a second `claim_winnings` call by the same
caller — whatever its gateway inputs — fails with `InsufficientBalance`,
leaving the state unchanged. -/
theorem C9_claim_at_most_once (s s' : EngineState) (u : Nat)
    (pos : Option Position) (cancelOk settleOk : Bool)
    (h : claim_winnings s (some u) pos cancelOk settleOk = (s', none)) :
    lookupEntry s'.user_balances u = none
    ∧ ∀ (pos2 : Option Position) (c2 st2 : Bool),
        claim_winnings s' (some u) pos2 c2 st2
          = (s', some MarketError.InsufficientBalance) := by
  unfold claim_winnings at h
  by_cases hres : s.market.status = MarketStatus.Resolved
  · simp only [hres, if_true] at h
    cases hbal : lookupEntry s.user_balances u with
    | none =>
        rw [hbal] at h
        simp at h
    | some bal =>
        rw [hbal] at h
        by_cases hw : (if s.market.resolved_outcome.getD false = true
            then bal.1 else bal.2) = 0
        · simp only [hw, if_true] at h
          simp at h
        · simp only [hw, if_false] at h
          rcases pos with _ | p
          · simp at h
          cases cancelOk with
          | false => simp at h
          | true =>
              cases settleOk with
              | false => simp at h
              | true =>
                  simp only [if_true] at h
                  rw [Prod.ext_iff] at h
                  obtain ⟨h1, -⟩ := h
                  simp only [] at h1
                  subst h1
                  refine ⟨?_, ?_⟩
                  · exact lookupEntry_removeEntry s.user_balances u
                  · intro pos2 c2 st2
                    unfold claim_winnings
                    simp only [hres, if_true, lookupEntry_removeEntry]
  · simp only [hres, if_false] at h
    simp at h

/-- Witness for C9_claim_at_most_once: user 0 claims 70 YES winnings on
`resolvedYesState`; afterwards the entry is gone and a repeat claim fails with
`InsufficientBalance`. -/
theorem C9_claim_at_most_once_witness :
    lookupEntry claimedYesState.user_balances 0 = none
    ∧ claim_winnings claimedYesState (some 0) none true true
        = (claimedYesState, some MarketError.InsufficientBalance) := by
  have h := C9_claim_at_most_once resolvedYesState claimedYesState 0
    (some flatPosition) true true (by decide)
  exact ⟨h.1, h.2 none true true⟩

/-- Claim C10 (confirmed): `register_oracle` for an already-registered address
(with the admin and signing checks passing) returns success and leaves the
whole registry state — the stored entry's public key, reputation score and
submission count included — completely unchanged. -/
theorem C10_register_oracle_idempotent (s : OracleManagerState)
    (c address public_key : Nat)
    (hreg : (lookupEntry s.registered_oracles address).isSome = true) :
    register_oracle s (some c) true true address public_key = (s, none) := by
  unfold register_oracle
  simp [hreg]

/-- Witness for C10_register_oracle_idempotent: re-registering identity 7
(already stored with reputation 42 and 3 submissions) under a fresh public
key leaves `registryState` unchanged and succeeds. -/
theorem C10_register_oracle_idempotent_witness :
    register_oracle registryState (some 3) true true 7 99
      = (registryState, none) :=
  C10_register_oracle_idempotent registryState 3 7 99 (by decide)

end Hypermarket
